import Mathlib

set_option maxHeartbeats 1000000

/-!
Shallow embedding of `src/app.py` (a Flask wrapper around the Amazon
Product Advertising API): the normalizer `normalize_item` together with its
helper `g`, the TTL cache (`cache_get` / `cache_set`), the retrying upstream
client `search_paapi`, and the `/search` orchestrator (parameter parsing,
per-page loop, filtering, scoring, sorting, response status).

Modelling conventions:
* Python values flowing through the loosely-typed JSON documents are embedded
  as the inductive `PyVal`; dictionary keys can be strings or integers
  (`PyKey`), since `g` is called with the integer key `0`.
* Python numbers (ints and floats) are modelled as exact rationals `ℚ`;
  `math.log10` is modelled as `Real.logb 10` on exact values.
* Operations that can raise a Python exception are embedded as
  `Option`-valued functions, `none` standing for the raised exception;
  a `try/except` block in the source turns into handling that `none`.
* Wall-clock time is an explicit `ℚ` parameter (`time.time()`), sleeps are
  irrelevant to the values computed and are not modelled.
* `str()` applied to numbers, lists or dicts (float repr) is not modelled and
  is embedded as a fault; no theorem below depends on those shapes.
-/

/-- A Python dict key as used by `g`: either a string or an integer. -/
inductive PyKey where
  | s (str : String)
  | i (int : Int)
deriving DecidableEq

/-- A Python/JSON value as manipulated by `app.py`. -/
inductive PyVal where
  | none
  | bool (b : Bool)
  | num (q : ℚ)
  | str (s : String)
  | list (xs : List PyVal)
  | dict (entries : List (PyKey × PyVal))

/-- First-match lookup in a dict's entry list (Python dicts have unique keys). -/
def lookupKey : List (PyKey × PyVal) → PyKey → Option PyVal
  | [], _ => Option.none
  | (k', v) :: rest, k => if k' = k then some v else lookupKey rest k

/-- Python truthiness of a value (`bool(x)`). -/
def pyTruthy : PyVal → Bool
  | .none => false
  | .bool b => b
  | .num q => q ≠ 0
  | .str s => s ≠ ""
  | .list xs => ¬ xs.isEmpty
  | .dict es => ¬ es.isEmpty

/-- Numeric coercion used by Python arithmetic: numbers and bools are numeric
(`True` is `1`), everything else raises `TypeError` (embedded as `none`). -/
def pyToQ : PyVal → Option ℚ
  | .num q => some q
  | .bool b => some (if b then 1 else 0)
  | _ => Option.none

/-- `d.get(k)` on a dict value with default `None`; the argument is known to be
a dict at every use site. -/
def dictGet (es : List (PyKey × PyVal)) (k : PyKey) : PyVal :=
  (lookupKey es k).getD .none

/--
`g(obj, path, default)` from `app.py`:

    cur = obj
    for k in path:
        if isinstance(cur, dict): cur = cur.get(k, None)
        else: return default
        if cur is None: return default
    return cur

Note that a `list` encountered mid-path makes `g` return the default (the
`isinstance` test fails), so `g(item, ["Offers","Listings",0], {})` yields the
default `{}` whenever `Listings` is a JSON array.
-/
def g (default : PyVal) : PyVal → List PyKey → PyVal
  | cur, [] => cur
  | cur, k :: ks =>
    match cur with
    | .dict es =>
      match lookupKey es k with
      | Option.none => default
      | some .none => default
      | some v => g default v ks
    | _ => default

/-- Python `round` on an exact rational: round-half-to-even, as for Python
floats/ints with no `ndigits` argument. -/
def pyRound (q : ℚ) : ℤ :=
  let f : ℤ := ⌊q⌋
  let frac : ℚ := q - f
  if frac < 1/2 then f
  else if 1/2 < frac then f + 1
  else if f % 2 = 0 then f else f + 1

/-- The canonical product record built by `normalize_item` (the returned dict,
field for field).  `savings_amount` / `savings_percent` are always absent or
numeric, so they are typed; every other field carries the raw extracted
value. -/
structure Product where
  id : PyVal
  asin : PyVal
  name : PyVal
  brand : PyVal
  category : PyVal
  price : PyVal
  currency : PyVal
  list_price : PyVal
  savings_amount : Option ℚ
  savings_percent : Option ℤ
  rating : PyVal
  review_count : PyVal
  stock_message : PyVal
  is_prime : PyVal
  is_free_shipping : PyVal
  is_fulfilled_by_amazon : PyVal
  delivery_min : PyVal
  delivery_max : PyVal
  features : PyVal
  image : PyVal
  images : List PyVal
  upc : PyVal
  ean : PyVal
  affiliate_url : PyVal

/--
Lines 48–52 of `app.py`:

    savings_amt = savings_pct = None
    if price_amt is not None and list_price_amt:
        savings_amt = max(0.0, list_price_amt - price_amt)
        if list_price_amt > 0:
            savings_pct = round(100.0 * savings_amt / list_price_amt)

The subtraction raises (outer `none`) when either operand is non-numeric.
-/
def savingsOf : PyVal → PyVal → Option (Option ℚ × Option ℤ)
  | .none, _ => some (Option.none, Option.none)
  | price, lp =>
    if pyTruthy lp then
      (pyToQ lp).bind fun l =>
      (pyToQ price).map fun p =>
        let sa : ℚ := max 0 (l - p)
        (some sa, if 0 < l then some (pyRound (100 * sa / l)) else Option.none)
    else some (Option.none, Option.none)

/-- `if x: x = str(x)[:10]` applied to the delivery-date fields.  Falsy values
pass through unchanged; truthy strings are truncated to 10 characters; `str()`
of a truthy bool is `"True"`/`"False"`; `str()` of numbers/lists/dicts (float
and container reprs) is not modelled and embedded as a fault. -/
def truncDate (v : PyVal) : Option PyVal :=
  if pyTruthy v then
    match v with
    | .str s => some (.str (s.take 10))
    | .bool b => some (.str (if b then "True" else "False"))
    | _ => Option.none
  else some v

/-- `x or []`: keep `x` if truthy, else the empty list. -/
def pyOrEmptyList (v : PyVal) : PyVal :=
  if pyTruthy v then v else .list []

/--
Lines 66–69: iterate the variants, collecting truthy `Large.URL` values.
Iterating a string yields its characters and iterating a dict yields its keys;
in either case `g` hits a non-dict and returns the `None` default, which is
falsy and never appended — so both collect `[]`.  Iterating a number or bool
raises `TypeError` (embedded as `none`); `.none` cannot reach here because the
caller applies `pyOrEmptyList` first.
-/
def variantsOf : PyVal → Option (List PyVal)
  | .list xs =>
    some (xs.filterMap fun v =>
      let url := g .none v [.s "Large", .s "URL"]
      if pyTruthy url then some url else Option.none)
  | .str _ => some []
  | .dict _ => some []
  | _ => Option.none

/-- Python slicing `x[:n]`: lists and strings slice, anything else truthy
raises `TypeError`. -/
def pySlice (n : ℕ) : PyVal → Option PyVal
  | .list xs => some (.list (xs.take n))
  | .str s => some (.str (s.take n))
  | _ => Option.none

/-- `x[0]`: head of a non-empty list, first character of a non-empty string,
`d[0]` on a dict (`KeyError` when the integer key `0` is absent); indexing a
number or bool raises.  Used only on truthy values. -/
def pyIndex0 : PyVal → Option PyVal
  | .list (x :: _) => some x
  | .str s => some (.str (s.take 1))
  | .dict es => lookupKey es (.i 0)
  | _ => Option.none

/-- `y = None; if x: y = x[0]` for the UPC/EAN lists. -/
def firstOfTruthy (v : PyVal) : Option PyVal :=
  if pyTruthy v then pyIndex0 v else some .none

/--
`normalize_item(item)` from `app.py` lines 38–108.  The whole body is wrapped
in `try: ... except Exception: return None`, so any embedded fault collapses
to `none`; calling `.get` on a non-dict item raises immediately, hence
non-dict inputs yield `none`.  Note there is no check that the ASIN is
present: a dict without `"ASIN"` still produces a record (with `id = None`).
-/
def normalize_item (item : PyVal) : Option Product :=
  match item with
  | .dict es =>
    let asin := dictGet es (.s "ASIN")
    let title := g .none item [.s "ItemInfo", .s "Title", .s "DisplayValue"]
    let brand := g .none item [.s "ItemInfo", .s "ByLineInfo", .s "Brand", .s "DisplayValue"]
    let category := g .none item [.s "ItemInfo", .s "Classifications", .s "Binding", .s "DisplayValue"]
    let listing := g (.dict []) item [.s "Offers", .s "Listings", .i 0]
    let price_amt := g .none listing [.s "Price", .s "Amount"]
    let list_price_amt := g .none listing [.s "SavingBasis", .s "Amount"]
    (savingsOf price_amt list_price_amt).bind fun sv =>
    (truncDate (g .none listing [.s "DeliveryInfo", .s "MinDeliveryDate"])).bind fun del_min =>
    (truncDate (g .none listing [.s "DeliveryInfo", .s "MaxDeliveryDate"])).bind fun del_max =>
    (variantsOf (pyOrEmptyList (g (.list []) item [.s "Images", .s "Variants"]))).bind fun variants =>
    (pySlice 6 (pyOrEmptyList (g (.list []) item [.s "ItemInfo", .s "Features", .s "DisplayValues"]))).bind fun features =>
    (firstOfTruthy (g .none item [.s "ItemInfo", .s "ExternalIds", .s "UPCs", .s "DisplayValues"])).bind fun upc =>
    (firstOfTruthy (g .none item [.s "ItemInfo", .s "ExternalIds", .s "EANs", .s "DisplayValues"])).map fun ean =>
      { id := asin
        asin := asin
        name := title
        brand := brand
        category := category
        price := price_amt
        currency := .str "USD"
        list_price := list_price_amt
        savings_amount := sv.1
        savings_percent := sv.2
        rating := g .none item [.s "CustomerReviews", .s "StarRating", .s "DisplayValue"]
        review_count := g .none item [.s "CustomerReviews", .s "Count"]
        stock_message := g .none listing [.s "Availability", .s "Message"]
        is_prime := g .none listing [.s "DeliveryInfo", .s "IsPrimeEligible"]
        is_free_shipping := g .none listing [.s "DeliveryInfo", .s "IsFreeShippingEligible"]
        is_fulfilled_by_amazon := g .none listing [.s "MerchantInfo", .s "IsFulfilledByAmazon"]
        delivery_min := del_min
        delivery_max := del_max
        features := features
        image := g .none item [.s "Images", .s "Primary", .s "Large", .s "URL"]
        images := variants.take 5
        upc := upc
        ean := ean
        affiliate_url := dictGet es (.s "DetailPageURL") }
  | _ => Option.none

/--
Line 281: `[normalize_item(it) for it in raw_items if normalize_item(it)]`.
The record returned by `normalize_item` is a dict with 26 keys, hence always
truthy, so the comprehension keeps every `some` result (the function is pure,
so the two calls per item agree).
-/
def normalizeBatch (raw_items : List PyVal) : List Product :=
  raw_items.filterMap normalize_item

/-! ### TTL cache (lines 110–128) -/

/-- Cache keys are `("search", q, page)` tuples. -/
def CKey : Type := String × String × ℕ

instance : DecidableEq CKey := by
  unfold CKey
  infer_instance

/-- The process-wide dict `_cache`, mapping a key to `(expiry, data)`. -/
def CacheMap : Type := CKey → Option (ℚ × List Product)

/-- `_cache[key] = (time.time() + ttl, data)` (lines 126–128). -/
def cache_set (now : ℚ) (c : CacheMap) (k : CKey) (data : List Product)
    (ttl : ℚ) : CacheMap :=
  fun k' => if k' = k then some (now + ttl, data) else c k'

/--
`cache_get(key)` (lines 114–124), with `time.time()` passed explicitly:
returns the cached data (first component) and the possibly-updated map
(second component) — a stale entry is deleted as part of the lookup.
The stored pair is a non-empty tuple, so `if not item` is exactly the
`None` test.
-/
def cache_get (now : ℚ) (c : CacheMap) (k : CKey) :
    Option (List Product) × CacheMap :=
  match c k with
  | Option.none => (Option.none, c)
  | some (exp, data) =>
    if exp < now then (Option.none, fun k' => if k' = k then Option.none else c k')
    else (some data, c)

/-! ### Upstream client with retries (lines 152–205) -/

/-- One HTTP response as observed by `search_paapi`: the status code, the
result of `r.json()` (`none` when the body is not JSON, so `.json()` raises),
and `r.text`. -/
structure UpResp where
  status : ℕ
  json? : Option PyVal
  text : String

/-- `r.json()` falling back to `r.text` (the `try/except` at lines 194–197 and
201–204). -/
def bodyErr (r : UpResp) : PyVal ⊕ String :=
  match r.json? with
  | some j => Sum.inl j
  | Option.none => Sum.inr r.text

/-- `data.get("Errors")` — raises `AttributeError` when the parsed body is not
a dict (embedded as `none`). -/
def pyGetKey (v : PyVal) (k : String) : Option PyVal :=
  match v with
  | .dict es => some (dictGet es (.s k))
  | _ => Option.none

/-- Line 184: `g(data, ["SearchResult","Items"]) or g(data, ["ItemsResult","Items"], [])`
followed by `return items or []`. -/
def itemsOf (data : PyVal) : PyVal :=
  let a := g .none data [.s "SearchResult", .s "Items"]
  let items := if pyTruthy a then a else g (.list []) data [.s "ItemsResult", .s "Items"]
  if pyTruthy items then items else .list []

/-- Everything `search_paapi` can do, with the number of attempts made.
`fault` stands for an uncaught exception in the success branch (body not JSON,
or a non-dict JSON body); `noResponse` is the `last_resp is None` arm, which
is unreachable with `max_retries = 5`. -/
inductive FetchOutcome where
  | success (items : PyVal) (attempts : ℕ)
  | fault (attempts : ℕ)
  | logicalError (errs : PyVal) (attempts : ℕ)
  | fatal (status : ℕ) (body : PyVal ⊕ String) (attempts : ℕ)
  | exhausted (status : ℕ) (body : PyVal ⊕ String) (attempts : ℕ)
  | noResponse

/-- The retryable status set of line 188. -/
def retryableStatus (s : ℕ) : Bool :=
  s = 429 ∨ s = 500 ∨ s = 502 ∨ s = 503 ∨ s = 504

/--
The `for _ in range(max_retries)` loop of lines 172–205, one unfolding per
remaining iteration.  `resp n` is the response to the `n`-th `requests.post`
(0-based); `made` counts the attempts already made, so `resp (made - 1)` is
`last_resp` when the loop exhausts.  Rate-limiter waits, backoff sleeps and
jitter only consume time and are not modelled.
-/
def fetchGo (resp : ℕ → UpResp) : ℕ → ℕ → FetchOutcome
  | 0, made =>
    match made with
    | 0 => .noResponse
    | m + 1 => .exhausted (resp m).status (bodyErr (resp m)) (m + 1)
  | rem + 1, made =>
    let r := resp made
    if 200 ≤ r.status ∧ r.status < 300 then
      match r.json? with
      | Option.none => .fault (made + 1)
      | some data =>
        match pyGetKey data "Errors" with
        | Option.none => .fault (made + 1)
        | some errs =>
          if pyTruthy errs then .logicalError errs (made + 1)
          else .success (itemsOf data) (made + 1)
    else if retryableStatus r.status then fetchGo resp rem (made + 1)
    else .fatal r.status (bodyErr r) (made + 1)

/-- `search_paapi` with `max_retries = 5` (line 168), abstracted over the
sequence of upstream responses. -/
def search_paapi (resp : ℕ → UpResp) : FetchOutcome :=
  fetchGo resp 5 0

/-! ### Request-parameter parsing (lines 237–255) -/

/-- `request.args.get(name)`: first value bound to the name, if any. -/
def argsGet (args : List (String × String)) (name : String) : Option String :=
  (args.find? fun kv => kv.1 = name).map fun kv => kv.2

/-- Python `str.strip()` with no argument: remove leading and trailing
whitespace (implemented over the character list). -/
def stripChars (cs : List Char) : List Char :=
  ((cs.dropWhile Char.isWhitespace).reverse.dropWhile Char.isWhitespace).reverse

/-- Digit-string value, `foldl`-style as Python's `int` parsing accumulates. -/
def digitsVal (cs : List Char) : ℕ :=
  cs.foldl (fun acc c => acc * 10 + (c.toNat - 48)) 0

/-- Split a character list at a separator character (Python `str.split(sep)`
shape, used only to recognise the decimal point). -/
def splitAtChar (sep : Char) (cs : List Char) : List (List Char) :=
  match cs with
  | [] => [[]]
  | c :: rest =>
    let parts := splitAtChar sep rest
    if c = sep then [] :: parts
    else
      match parts with
      | [] => [[c]]
      | p :: ps => (c :: p) :: ps

/-- Sign handling shared by Python's `int`/`float` string parsing: an optional
single leading `+`/`-`. -/
def signSplit (cs : List Char) : ℤ × List Char :=
  match cs with
  | '-' :: rest => (-1, rest)
  | '+' :: rest => (1, rest)
  | _ => (1, cs)

/-- Python `int(s)` on a string: optional surrounding whitespace, optional
sign, one or more digits (digit-group underscores are not modelled); anything
else raises (`none`). -/
def parseIntPy (s : String) : Option ℤ :=
  let (sign, digits) := signSplit (stripChars s.toList)
  if ¬ digits.isEmpty ∧ digits.all Char.isDigit then
    some (sign * (digitsVal digits : ℕ))
  else Option.none

/-- Python `float(s)` on a string: optional whitespace and sign, digits with
an optional decimal point (exponent, `inf` and `nan` forms are not modelled);
anything else raises (`none`). -/
def parseFloatPy (s : String) : Option ℚ :=
  let (sign, body) := signSplit (stripChars s.toList)
  match splitAtChar '.' body with
  | [ipart] =>
    if ¬ ipart.isEmpty ∧ ipart.all Char.isDigit then
      some ((sign : ℚ) * (digitsVal ipart : ℕ))
    else Option.none
  | [ipart, fpart] =>
    if (¬ ipart.isEmpty ∨ ¬ fpart.isEmpty) ∧ ipart.all Char.isDigit ∧
        fpart.all Char.isDigit then
      some ((sign : ℚ) *
        ((digitsVal ipart : ℕ) + (digitsVal fpart : ℕ) / ((10 : ℚ) ^ fpart.length)))
    else Option.none
  | _ => Option.none

/-- `_float(name)` (lines 241–244): `float(v) if v else None`, exceptions
yielding `None`. -/
def floatParam (args : List (String × String)) (name : String) : Option ℚ :=
  match argsGet args name with
  | Option.none => Option.none
  | some v => if v = "" then Option.none else parseFloatPy v

/-- `_int(name, default)` (lines 245–248). -/
def intParam (args : List (String × String)) (name : String) (default : ℤ) : ℤ :=
  match argsGet args name with
  | Option.none => default
  | some v => if v = "" then default else (parseIntPy v).getD default

/-- `_bool(name)` (lines 249–251): lower-cased (ASCII — the tested literals
are ASCII), stripped value tested for membership in `("1","true","yes","y")`. -/
def boolParam (args : List (String × String)) (name : String) : Bool :=
  let v := stripChars (((argsGet args name).getD "").toList.map Char.toLower)
  v = "1".toList ∨ v = "true".toList ∨ v = "yes".toList ∨ v = "y".toList

/-- Line 253: `max_price = _float("max_price")`. -/
def maxPriceOf (args : List (String × String)) : Option ℚ :=
  floatParam args "max_price"

/-- Line 254: `pages = max(1, min(_int("pages", 1), 5))`. -/
def pagesOf (args : List (String × String)) : ℤ :=
  max 1 (min (intParam args "pages" 1) 5)

/-- Line 255: `prime_only = _bool("prime_only")`. -/
def primeOnlyOf (args : List (String × String)) : Bool :=
  boolParam args "prime_only"

/-- `range(1, pages+1)` over the clamped page count. -/
def pageList (args : List (String × String)) : List ℕ :=
  List.range' 1 (pagesOf args).toNat

/-! ### Per-item filters (lines 289–295) -/

/--
The first filter line:

    if (max_price is not None) and (p["price"] is not None) and (p["price"] > max_price): continue

`some true` = the item is skipped; `and` short-circuits, so the comparison —
which raises `TypeError` on a non-numeric price (`none`) — is only reached
with a ceiling and a non-`None` price.
-/
def priceSkip (max_price : Option ℚ) (price : PyVal) : Option Bool :=
  match max_price with
  | Option.none => some false
  | some m =>
    match price with
    | .none => some false
    | v => (pyToQ v).map fun q => decide (m < q)

/-- Python `x is True`: identity with the boolean `True`. -/
def isTrueVal : PyVal → Bool
  | .bool b => b
  | _ => false

/-- The two `continue` tests applied to one product; `some true` = kept.
The second line is `if prime_only and p["is_prime"] is not True: continue`. -/
def keepItem (mp : Option ℚ) (po : Bool) (p : Product) : Option Bool :=
  (priceSkip mp p.price).map fun skip1 =>
    if skip1 then false
    else if po && ! isTrueVal p.is_prime then false
    else true

/-- The `for p in normalized:` filter loop, appending kept items in order;
`none` = an uncaught `TypeError` from the price comparison. -/
def filterKeep (mp : Option ℚ) (po : Bool) : List Product → Option (List Product)
  | [] => some []
  | p :: ps =>
    (keepItem mp po p).bind fun k =>
    (filterKeep mp po ps).map fun rest =>
    if k then p :: rest else rest

/-! ### The per-page orchestration loop (lines 271–298) -/

/--
The `for page in range(1, pages+1)` loop.  `cached pg` is what
`cache_get(("search", q, pg))` returns at this request's instant (each page
key is consulted exactly once per request, so the cache can be read as a fixed
map); `fetch pg` is `search_paapi(q, pg, 10, resources)`, `Except.error e`
standing for a raised exception with message `e`.  The result is
`(results, errors, fetched)` where `fetched` records the pages on which an
upstream fetch was attempted; a fetch failure appends the error and breaks,
so nothing after the failing page runs.  The outer `none` is an uncaught
filter exception.
-/
def searchAccum (cached : ℕ → Option (List Product))
    (fetch : ℕ → Except String (List PyVal))
    (mp : Option ℚ) (po : Bool) : List ℕ → Option (List Product × List String × List ℕ)
  | [] => some ([], [], [])
  | pg :: rest =>
    match cached pg with
    | some prods =>
      (filterKeep mp po prods).bind fun kept =>
      (searchAccum cached fetch mp po rest).map fun out =>
      (kept ++ out.1, out.2.1, out.2.2)
    | Option.none =>
      match fetch pg with
      | .error e => some ([], [e], [pg])
      | .ok raw =>
        (filterKeep mp po (normalizeBatch raw)).bind fun kept =>
        (searchAccum cached fetch mp po rest).map fun out =>
        (kept ++ out.1, out.2.1, pg :: out.2.2)

/-- Line 321: `status = 200 if results_sorted else (502 if errors else 200)`
(the sorted list is a permutation of `results`, so its truthiness is the
truthiness of `results`). -/
def searchStatus (results : List Product) (errors : List String) : ℕ :=
  if results.isEmpty then (if errors.isEmpty then 200 else 502) else 200

/-! ### Scoring and sorting (lines 302–311) -/

/-- `x or 0` / `x or 0.0`. -/
def pyOrZero (v : PyVal) : PyVal :=
  if pyTruthy v then v else .num 0

/--
    price_fit = 0.0
    if max_price and p["price"]:
        price_fit = 1.0 - min(1.0, max(0.0, (p["price"]/max_price)))

Truthiness of `max_price` (a float or `None`) is `some m` with `m ≠ 0`.
-/
def priceFit (mp : Option ℚ) (price : PyVal) : Option ℚ :=
  match mp with
  | Option.none => some 0
  | some m =>
    if m ≠ 0 ∧ pyTruthy price then
      (pyToQ price).map fun q => 1 - min 1 (max 0 (q / m))
    else some 0

/--
The exactly-computable parts of `score(p)` — the coerced rating `r`, the
review count `v` (the code takes `log10(v + 1.0)`, which raises `ValueError`
unless `v + 1 > 0`), the price fit, and the prime bonus (`0.2` when
`p["is_prime"]` is truthy).  `none` = `score` raises.
-/
def scoreParts (mp : Option ℚ) (p : Product) : Option (ℚ × ℚ × ℚ × ℚ) :=
  (pyToQ (pyOrZero p.rating)).bind fun r =>
  (pyToQ (pyOrZero p.review_count)).bind fun v =>
  if v + 1 ≤ 0 then Option.none
  else (priceFit mp p.price).map fun fit =>
    (r, v, fit, if pyTruthy p.is_prime then 1/5 else 0)

/-- `score(p) = (r*2.0) + math.log10(v + 1.0) + price_fit + prime_bonus`
(line 309), on exact values; junk `0` when `score` would raise. -/
noncomputable def scoreR (mp : Option ℚ) (p : Product) : ℝ :=
  match scoreParts mp p with
  | some (r, v, fit, bonus) => 2 * (r : ℝ) + Real.logb 10 ((v : ℝ) + 1) + (fit : ℝ) + (bonus : ℝ)
  | Option.none => 0

/-- `sorted(results, key=score, reverse=True)`: a stable descending sort —
ties keep their accumulation order, exactly Python's `sorted` with
`reverse=True`. -/
noncomputable def sortDescBy (key : Product → ℝ) (l : List Product) : List Product :=
  l.mergeSort fun a b => decide (key b ≤ key a)

/-- Whether `score(p)` evaluates without raising. -/
def scoreDefined (mp : Option ℚ) (p : Product) : Bool :=
  (scoreParts mp p).isSome

/-- Lines 311 and 316: the ordered product list placed in the response
payload.  There is no truncation between the sort and the payload; `none` =
`score` raised during sorting (a 500, no payload at all). -/
noncomputable def payloadProducts (mp : Option ℚ) (results : List Product) :
    Option (List Product) :=
  if results.all (scoreDefined mp) then some (sortDescBy (scoreR mp) results)
  else Option.none

/-! ## Claim C1 — missing-identifier handling in `normalize_item` -/

/-- `item.get("ASIN")` as `normalize_item` extracts it (only meaningful for
dict items; `normalize_item` raises before using it otherwise). -/
def asinOf (item : PyVal) : PyVal :=
  match item with
  | .dict es => dictGet es (.s "ASIN")
  | _ => .none

/-- The record `normalize_item` builds for the empty raw item `{}`: every
extracted field absent — including `id` — yet a full record, not `None`. -/
def noAsinProduct : Product :=
  { id := .none, asin := .none, name := .none, brand := .none, category := .none
    price := .none, currency := .str "USD", list_price := .none
    savings_amount := Option.none, savings_percent := Option.none
    rating := .none, review_count := .none, stock_message := .none
    is_prime := .none, is_free_shipping := .none, is_fulfilled_by_amazon := .none
    delivery_min := .none, delivery_max := .none, features := .list []
    image := .none, images := [], upc := .none, ean := .none, affiliate_url := .none }

/-- C1 counterexample: the raw item `{}` yields no ASIN, yet `normalize_item`
returns a full record with `id = None` rather than `None`, and the
normalization stage of `/search` keeps it — the item is surfaced as a partial
record, not dropped. -/
theorem C1_counterexample :
    normalize_item (PyVal.dict []) = some noAsinProduct ∧
    noAsinProduct.id = PyVal.none ∧
    normalizeBatch [PyVal.dict []] = [noAsinProduct] :=
  ⟨rfl, rfl, rfl⟩

/-- C1 (amended): `normalize_item` never raises; it returns `none` for raw
items that are not dicts (its internal faults also yield `none`), and every
record it does return carries the raw `item.get("ASIN")` — absent when the
item has no identifier — with nested fields extracted by `g` (absent when
missing); every returned record, with or without an identifier, is kept by
the `/search` normalization stage, not dropped. -/
theorem C1_amended (item : PyVal) :
    ((∀ es, item ≠ PyVal.dict es) → normalize_item item = Option.none) ∧
    (∀ p, normalize_item item = some p →
      p.id = asinOf item ∧
      p.name = g .none item [.s "ItemInfo", .s "Title", .s "DisplayValue"] ∧
      p.brand = g .none item [.s "ItemInfo", .s "ByLineInfo", .s "Brand", .s "DisplayValue"] ∧
      normalizeBatch [item] = [p]) := by
  constructor
  · intro h
    cases item with
    | dict es => exact absurd rfl (h es)
    | none => rfl
    | bool b => rfl
    | num q => rfl
    | str s => rfl
    | list xs => rfl
  · intro p hp
    have hkeep : normalizeBatch [item] = [p] := by
      simp [normalizeBatch, hp]
    cases item with
    | dict es =>
      simp only [normalize_item, Option.bind_eq_some, Option.map_eq_some'] at hp
      obtain ⟨sv, hsv, dmin, hdmin, dmax, hdmax, vars, hvars, feats, hfeats,
        upc, hupc, ean, hean, hrec⟩ := hp
      subst hrec
      exact ⟨rfl, rfl, rfl, hkeep⟩
    | none => simp [normalize_item] at hp
    | bool b => simp [normalize_item] at hp
    | num q => simp [normalize_item] at hp
    | str s => simp [normalize_item] at hp
    | list xs => simp [normalize_item] at hp

/-- C1 witness: `C1_amended` applied to the non-dict item `"nope"` and to the
concrete dict `{}`. -/
theorem C1_witness :
    normalize_item (PyVal.str "nope") = Option.none ∧
    (noAsinProduct.id = asinOf (PyVal.dict []) ∧
     noAsinProduct.name = g .none (PyVal.dict []) [.s "ItemInfo", .s "Title", .s "DisplayValue"] ∧
     noAsinProduct.brand = g .none (PyVal.dict []) [.s "ItemInfo", .s "ByLineInfo", .s "Brand", .s "DisplayValue"] ∧
     normalizeBatch [PyVal.dict []] = [noAsinProduct]) :=
  ⟨(C1_amended (PyVal.str "nope")).1 (fun _ h => PyVal.noConfusion h),
   (C1_amended (PyVal.dict [])).2 noAsinProduct rfl⟩

/-! ## Claim C2 — the price-ceiling filter and absent prices -/

/-- A product with an identifier and a rating but no price. -/
def c2NoPrice : Product :=
  { noAsinProduct with id := .str "B00X", asin := .str "B00X", rating := .num 4 }

/-- A product priced at 120. -/
def c2Priced : Product :=
  { noAsinProduct with id := .str "B00Y", asin := .str "B00Y", price := .num 120 }

/-- C2 counterexample: with a price ceiling of 100 supplied, a product whose
price is absent passes the filter loop and is kept — the filter line skips an
item only when `p["price"] is not None` and exceeds the ceiling, so an absent
price is *included*, not excluded. -/
theorem C2_counterexample :
    c2NoPrice.price = PyVal.none ∧
    filterKeep (some 100) false [c2NoPrice] = some [c2NoPrice] :=
  ⟨rfl, rfl⟩

/-- C2 (amended): a product with an absent price always passes the
price-ceiling predicate (it is included, not excluded); a product with price
120 is excluded when the ceiling is 100 and included when the ceiling is 150
or when no ceiling is supplied. -/
theorem C2_amended :
    (∀ (mp : Option ℚ) (p : Product), p.price = PyVal.none →
      priceSkip mp p.price = some false) ∧
    (∀ p : Product, p.price = PyVal.num 120 →
      priceSkip (some 100) p.price = some true ∧
      priceSkip (some 150) p.price = some false ∧
      priceSkip Option.none p.price = some false) ∧
    (∀ p : Product, p.price = PyVal.num 120 →
      filterKeep (some 100) false [p] = some [] ∧
      filterKeep (some 150) false [p] = some [p] ∧
      filterKeep Option.none false [p] = some [p]) := by
  refine ⟨?_, ?_, ?_⟩
  · intro mp p h
    rw [h]
    cases mp with
    | none => rfl
    | some m => rfl
  · intro p h
    rw [h]
    refine ⟨?_, ?_, rfl⟩
    · simp [priceSkip, pyToQ]
      norm_num
    · simp [priceSkip, pyToQ]
      norm_num
  · intro p h
    have h100 : priceSkip (some 100) p.price = some true := by
      rw [h]; simp [priceSkip, pyToQ]; norm_num
    have h150 : priceSkip (some 150) p.price = some false := by
      rw [h]; simp [priceSkip, pyToQ]; norm_num
    refine ⟨?_, ?_, ?_⟩
    · simp [filterKeep, keepItem, h100]
    · simp [filterKeep, keepItem, h150, isTrueVal]
    · simp [filterKeep, keepItem, priceSkip]

/-- C2 witness: `C2_amended` applied to the concrete no-price and price-120
products. -/
theorem C2_witness :
    priceSkip (some 100) PyVal.none = some false ∧
    priceSkip (some 100) (PyVal.num 120) = some true ∧
    priceSkip (some 150) (PyVal.num 120) = some false ∧
    priceSkip Option.none (PyVal.num 120) = some false ∧
    filterKeep (some 100) false [c2Priced] = some [] ∧
    filterKeep (some 150) false [c2Priced] = some [c2Priced] ∧
    filterKeep Option.none false [c2Priced] = some [c2Priced] := by
  have h1 := C2_amended.1 (some 100) c2NoPrice rfl
  have h2 := C2_amended.2.1 c2Priced rfl
  have h3 := C2_amended.2.2 c2Priced rfl
  exact ⟨h1, h2.1, h2.2.1, h2.2.2, h3.1, h3.2.1, h3.2.2⟩

/-! ## Claim C3 — there is no minimum-rating filter -/

/-- A product with an identifier and a price but no rating. -/
def c3NoRating : Product :=
  { noAsinProduct with id := .str "R1", asin := .str "R1", price := .num 10 }

/-- C3 counterexample: supplying `min_rating=4.5` in the request leaves the
parsed filter configuration (`max_price`, `pages`, `prime_only` — the only
parameters `/search` reads) unchanged, and a product whose rating is absent
still passes the filter stage — no minimum-rating predicate exists, so a
rating-less product is not excluded. -/
theorem C3_counterexample :
    maxPriceOf [("q", "headphones"), ("min_rating", "4.5")] = Option.none ∧
    pagesOf [("q", "headphones"), ("min_rating", "4.5")] = 1 ∧
    primeOnlyOf [("q", "headphones"), ("min_rating", "4.5")] = false ∧
    c3NoRating.rating = PyVal.none ∧
    filterKeep (maxPriceOf [("q", "headphones"), ("min_rating", "4.5")])
        (primeOnlyOf [("q", "headphones"), ("min_rating", "4.5")])
        [c3NoRating] = some [c3NoRating] := by
  refine ⟨rfl, by decide, by decide, rfl, ?_⟩
  have hmp : maxPriceOf [("q", "headphones"), ("min_rating", "4.5")] = Option.none := rfl
  have hpo : primeOnlyOf [("q", "headphones"), ("min_rating", "4.5")] = false := by decide
  rw [hmp, hpo]
  rfl

/-- C3 (amended): the filter stage consists of exactly the price-ceiling and
prime-only predicates; a product's rating never influences the per-item
predicate, and a `min_rating` request parameter has no effect on any parsed
filter parameter. -/
theorem C3_amended (mp : Option ℚ) (po : Bool) (p : Product) (r r' : PyVal)
    (args : List (String × String)) (v : String) :
    keepItem mp po { p with rating := r } = keepItem mp po { p with rating := r' } ∧
    maxPriceOf (("min_rating", v) :: args) = maxPriceOf args ∧
    pagesOf (("min_rating", v) :: args) = pagesOf args ∧
    primeOnlyOf (("min_rating", v) :: args) = primeOnlyOf args := by
  refine ⟨rfl, ?_, ?_, ?_⟩
  · simp [maxPriceOf, floatParam, argsGet]
  · simp [pagesOf, intParam, argsGet]
  · simp [primeOnlyOf, boolParam, argsGet]

/-! ## Claim C4 — no 50-item truncation after the sort -/

/-- A product on which `score` evaluates without raising. -/
def c4Scorable : Product :=
  { noAsinProduct with
    id := .str "S1"
    asin := .str "S1"
    rating := .num 4
    review_count := .num 10 }

/-- `score` is defined on `c4Scorable` (no ceiling). -/
theorem scoreDefined_c4 : scoreDefined Option.none c4Scorable = true := by
  norm_num [scoreDefined, scoreParts, pyOrZero, pyTruthy, pyToQ, priceFit, c4Scorable,
    noAsinProduct]

/-- C4 counterexample: 51 accumulated products come back as 51 products in the
response payload — `results_sorted = sorted(results, key=score, reverse=True)`
is placed in the payload whole; no `[:50]` truncation exists anywhere between
the sort and the response. -/
theorem C4_counterexample :
    (payloadProducts Option.none (List.replicate 51 c4Scorable)).map List.length = some 51 ∧
    ¬ (51 ≤ 50) := by
  have hall : (List.replicate 51 c4Scorable).all (scoreDefined Option.none) = true := by
    rw [List.all_eq_true]
    intro p hp
    rw [List.eq_of_mem_replicate hp]
    exact scoreDefined_c4
  refine ⟨?_, by norm_num⟩
  rw [payloadProducts, if_pos hall]
  simp [sortDescBy]

/-- C4 (amended): the product list in the response is the *entire* accumulated
result set — same length (no cap at 50 or anywhere else), a permutation of
the accumulated products — sorted descending by score. -/
theorem C4_amended (mp : Option ℚ) (rs l : List Product)
    (h : payloadProducts mp rs = some l) :
    l.length = rs.length ∧ l.Perm rs ∧
    l.Pairwise (fun a b => scoreR mp b ≤ scoreR mp a) := by
  by_cases hall : rs.all (scoreDefined mp) = true
  · rw [payloadProducts, if_pos hall] at h
    have hl : l = sortDescBy (scoreR mp) rs := (Option.some_injective _ h).symm
    subst hl
    have htrans : ∀ a b c : Product,
        decide (scoreR mp b ≤ scoreR mp a) = true →
        decide (scoreR mp c ≤ scoreR mp b) = true →
        decide (scoreR mp c ≤ scoreR mp a) = true := by
      intro a b c hab hbc
      simp only [decide_eq_true_eq] at *
      exact le_trans hbc hab
    have htotal : ∀ a b : Product,
        (decide (scoreR mp b ≤ scoreR mp a) || decide (scoreR mp a ≤ scoreR mp b)) = true := by
      intro a b
      simp only [Bool.or_eq_true, decide_eq_true_eq]
      exact le_total _ _
    have hs := List.sorted_mergeSort htrans htotal rs
    refine ⟨List.length_mergeSort rs, List.mergeSort_perm rs _, ?_⟩
    refine hs.imp ?_
    intro a b hab
    simpa using hab
  · rw [payloadProducts, if_neg hall] at h
    exact Option.noConfusion h

/-- C4 witness: `C4_amended` applied to the singleton result list. -/
theorem C4_witness :
    ([c4Scorable] : List Product).length = ([c4Scorable] : List Product).length ∧
    List.Perm [c4Scorable] [c4Scorable] ∧
    List.Pairwise (fun a b => scoreR Option.none b ≤ scoreR Option.none a) [c4Scorable] := by
  refine C4_amended Option.none [c4Scorable] [c4Scorable] ?_
  have hall : ([c4Scorable] : List Product).all (scoreDefined Option.none) = true := by
    simp [scoreDefined_c4]
  rw [payloadProducts, if_pos hall]
  simp [sortDescBy]

/-! ## Claim C5 — retry behaviour of `search_paapi` -/

/-- A run of retryable 503 responses only advances the attempt counter: the
loop re-enters with one fewer remaining iteration per 503. -/
theorem fetchGo_skip (resp : ℕ → UpResp) :
    ∀ (j rem made : ℕ), (∀ i, i < j → (resp (made + i)).status = 503) →
      fetchGo resp (j + rem) made = fetchGo resp rem (made + j) := by
  intro j
  induction j with
  | zero => intro rem made _; rw [Nat.zero_add, Nat.add_zero]
  | succ j ih =>
    intro rem made h
    have h0 : (resp made).status = 503 := by simpa using h 0 (Nat.succ_pos j)
    have hstep : fetchGo resp (j + rem + 1) made = fetchGo resp (j + rem) (made + 1) := by
      rw [fetchGo]
      simp only [h0]
      norm_num [retryableStatus]
    have hrec : fetchGo resp (j + rem) (made + 1) = fetchGo resp rem (made + 1 + j) := by
      refine ih rem (made + 1) ?_
      intro i hi
      have := h (i + 1) (by omega)
      simpa [Nat.add_assoc, Nat.add_comm 1 i] using this
    calc fetchGo resp (j + 1 + rem) made
        = fetchGo resp (j + rem + 1) made := by ring_nf
      _ = fetchGo resp rem (made + 1 + j) := by rw [hstep, hrec]
      _ = fetchGo resp rem (made + (j + 1)) := by ring_nf

/-- C5: if the upstream answers 503 exactly `k < 5` times and then 200 (with a
JSON dict body carrying no truthy `Errors`), `search_paapi` succeeds with the
extracted item list after exactly `k + 1` attempts; if it answers 503 on every
attempt, `search_paapi` fails after exactly `maxRetries = 5` attempts,
surfacing the last observed status (503) and the last response body. -/
theorem C5_confirmed (resp : ℕ → UpResp) :
    (∀ (k : ℕ) (data errs : PyVal), k < 5 →
      (∀ i, i < k → (resp i).status = 503) →
      (resp k).status = 200 →
      (resp k).json? = some data →
      pyGetKey data "Errors" = some errs →
      pyTruthy errs = false →
      search_paapi resp = .success (itemsOf data) (k + 1)) ∧
    ((∀ i, i < 5 → (resp i).status = 503) →
      search_paapi resp = .exhausted 503 (bodyErr (resp 4)) 5) := by
  constructor
  · intro k data errs hk h503 h200 hjson herrs htruthy
    have hskip := fetchGo_skip resp k (5 - k) 0 (by simpa using h503)
    have h5 : k + (5 - k) = 5 := by omega
    have hrem : 5 - k = (5 - k - 1) + 1 := by omega
    rw [search_paapi, ← h5, hskip, hrem, fetchGo]
    simp only [Nat.zero_add, h200, hjson]
    norm_num
    rw [herrs]
    simp [htruthy]
  · intro h503
    have hskip := fetchGo_skip resp 5 0 0 (by simpa using h503)
    rw [search_paapi, show (5 : ℕ) = 5 + 0 from rfl, hskip]
    rw [fetchGo]
    simp [h503 4 (by omega)]

/-- A stub upstream: 503 twice, then 200 with one raw item. -/
def c5RespOk : ℕ → UpResp := fun n =>
  if n < 2 then ⟨503, Option.none, "busy"⟩
  else ⟨200, some (.dict [(.s "SearchResult", .dict [(.s "Items", .list [PyVal.dict []])])]), "ok"⟩

/-- A stub upstream that always answers 503 with a JSON error body. -/
def c5RespBad : ℕ → UpResp :=
  fun _ => ⟨503, some (.dict [(.s "Errors", .list [.str "Throttled"])]), "busy"⟩

/-- C5 witness: `C5_confirmed` on the two concrete stubs — success in 3
attempts after two 503s, exhaustion after 5 attempts of pure 503. -/
theorem C5_witness :
    search_paapi c5RespOk = .success (.list [PyVal.dict []]) 3 ∧
    search_paapi c5RespBad =
      .exhausted 503 (Sum.inl (.dict [(.s "Errors", .list [.str "Throttled"])])) 5 := by
  constructor
  · exact (C5_confirmed c5RespOk).1 2
      (.dict [(.s "SearchResult", .dict [(.s "Items", .list [PyVal.dict []])])])
      PyVal.none (by omega) (by intro i hi; interval_cases i <;> rfl) rfl rfl rfl rfl
  · exact (C5_confirmed c5RespBad).2 (by intro i hi; rfl)

/-! ## Claim C6 — stop-on-failure, partial results, response status -/

/-- The fetch-attempt list of a loop run is never longer than the page list
(at most one fetch attempt per loop iteration). -/
theorem searchAccum_att_le (cached : ℕ → Option (List Product))
    (fetch : ℕ → Except String (List PyVal)) (mp : Option ℚ) (po : Bool) :
    ∀ (l : List ℕ) (rs : List Product) (es : List String) (att : List ℕ),
      searchAccum cached fetch mp po l = some (rs, es, att) → att.length ≤ l.length := by
  intro l
  induction l with
  | nil =>
    intro rs es att h
    simp only [searchAccum, Option.some.injEq, Prod.mk.injEq] at h
    obtain ⟨-, -, h3⟩ := h
    simp [← h3]
  | cons pg rest ih =>
    intro rs es att h
    cases hc : cached pg with
    | some prods =>
      rw [searchAccum, hc] at h
      simp only [Option.bind_eq_some, Option.map_eq_some'] at h
      obtain ⟨kept, hkept, ⟨rs1, es1, att1⟩, hrec, hout⟩ := h
      simp only [Prod.mk.injEq] at hout
      obtain ⟨-, -, h3⟩ := hout
      have := ih rs1 es1 att1 hrec
      simp only [← h3, List.length_cons]
      omega
    | none =>
      rw [searchAccum, hc] at h
      cases hf : fetch pg with
      | error e =>
        rw [hf] at h
        simp only [Option.some.injEq, Prod.mk.injEq] at h
        obtain ⟨-, -, h3⟩ := h
        simp [← h3]
      | ok raw =>
        rw [hf] at h
        simp only [Option.bind_eq_some, Option.map_eq_some'] at h
        obtain ⟨kept, hkept, ⟨rs1, es1, att1⟩, hrec, hout⟩ := h
        simp only [Prod.mk.injEq] at hout
        obtain ⟨-, -, h3⟩ := hout
        have := ih rs1 es1 att1 hrec
        simp only [← h3, List.length_cons]
        omega

/-- C6: when every page before `bad` succeeds (producing results `rs0` with no
errors and fetch attempts `att0`), page `bad` is uncached and its fetch
raises `e`, then the whole run returns exactly the earlier results `rs0`, the
single error `[e]`, and attempts `att0 ++ [bad]` — no page after `bad` is
ever attempted — and the response status is 502 exactly when no product was
gathered, 200 otherwise (success even alongside errors). -/
theorem C6_confirmed (cached : ℕ → Option (List Product))
    (fetch : ℕ → Except String (List PyVal)) (mp : Option ℚ) (po : Bool)
    (good : List ℕ) (bad : ℕ) (rest : List ℕ)
    (rs0 : List Product) (att0 : List ℕ) (e : String)
    (hgood : searchAccum cached fetch mp po good = some (rs0, [], att0))
    (hmiss : cached bad = Option.none) (hfail : fetch bad = Except.error e) :
    searchAccum cached fetch mp po (good ++ bad :: rest) =
      some (rs0, [e], att0 ++ [bad]) ∧
    searchStatus rs0 [e] = (if rs0.isEmpty then 502 else 200) := by
  constructor
  · induction good generalizing rs0 att0 with
    | nil =>
      simp only [searchAccum, Option.some.injEq, Prod.mk.injEq] at hgood
      obtain ⟨h1, -, h3⟩ := hgood
      rw [List.nil_append, searchAccum, hmiss, hfail, ← h1, ← h3]
      rfl
    | cons pg gs ih =>
      cases hc : cached pg with
      | some prods =>
        rw [searchAccum, hc] at hgood
        simp only [Option.bind_eq_some, Option.map_eq_some'] at hgood
        obtain ⟨kept, hkept, ⟨rs1, es1, att1⟩, hrec, hout⟩ := hgood
        simp only [Prod.mk.injEq] at hout
        obtain ⟨h1, h2, h3⟩ := hout
        have hih := ih rs1 att1 (h2 ▸ hrec)
        rw [List.cons_append, searchAccum, hc]
        simp only [hkept, Option.some_bind, hih, Option.map_some']
        rw [← h1, ← h3]
      | none =>
        rw [searchAccum, hc] at hgood
        cases hf : fetch pg with
        | error e' =>
          rw [hf] at hgood
          simp only [Option.some.injEq, Prod.mk.injEq] at hgood
          exact absurd hgood.2.1 (List.cons_ne_nil e' [])
        | ok raw =>
          rw [hf] at hgood
          simp only [Option.bind_eq_some, Option.map_eq_some'] at hgood
          obtain ⟨kept, hkept, ⟨rs1, es1, att1⟩, hrec, hout⟩ := hgood
          simp only [Prod.mk.injEq] at hout
          obtain ⟨h1, h2, h3⟩ := hout
          have hih := ih rs1 (pg :: att1).tail (h2 ▸ hrec)
          rw [List.cons_append, searchAccum, hc, hf]
          simp only [hkept, Option.some_bind, List.tail_cons] at hih ⊢
          simp only [hih, Option.map_some']
          rw [← h1, ← h3]
          rfl
  · simp [searchStatus]

/-- A minimal product for the C6 stub cache. -/
def c6Prod : Product :=
  { noAsinProduct with id := .str "C6", asin := .str "C6" }

/-- Stub cache: page 1 is a hit, everything else a miss. -/
def c6Cached : ℕ → Option (List Product) :=
  fun pg => if pg = 1 then some [c6Prod] else Option.none

/-- Stub cache with no entries. -/
def c6CachedNone : ℕ → Option (List Product) :=
  fun _ => Option.none

/-- Stub upstream whose every fetch raises. -/
def c6Fetch : ℕ → Except String (List PyVal) :=
  fun _ => Except.error "boom"

/-- C6 witness: `C6_confirmed` applied twice — page 2 fails after a successful
(cached) page 1, giving partial results and status 200; and page 1 fails with
nothing gathered, giving status 502. -/
theorem C6_witness :
    (searchAccum c6Cached c6Fetch Option.none false ([1] ++ 2 :: [3]) =
        some ([c6Prod], ["boom"], [] ++ [2]) ∧
      searchStatus [c6Prod] ["boom"] =
        (if ([c6Prod] : List Product).isEmpty then 502 else 200)) ∧
    (searchAccum c6CachedNone c6Fetch Option.none false ([] ++ 1 :: [2, 3]) =
        some ([], ["boom"], [] ++ [1]) ∧
      searchStatus [] ["boom"] =
        (if ([] : List Product).isEmpty then 502 else 200)) :=
  ⟨C6_confirmed c6Cached c6Fetch Option.none false [1] 2 [3] [c6Prod] [] "boom" rfl rfl rfl,
   C6_confirmed c6CachedNone c6Fetch Option.none false [] 1 [2, 3] [] [] "boom" rfl rfl rfl⟩

/-! ## Claim C7 — TTL cache get/put, lazy expiry, no resurrection -/

/-- C7: a `get` at the instant of `put(key, v, ttl)` (any non-negative ttl)
returns `v`; once the TTL has elapsed (`now + ttl < t1`), `get` misses, the
stale entry is deleted from the map as part of that lookup, and any later
`get` on the resulting map misses too — the evicted entry is never
resurrected. -/
theorem C7_confirmed (c : CacheMap) (k : CKey) (v : List Product) (ttl now t1 : ℚ) :
    (0 ≤ ttl → (cache_get now (cache_set now c k v ttl) k).1 = some v) ∧
    (now + ttl < t1 →
      (cache_get t1 (cache_set now c k v ttl) k).1 = Option.none ∧
      (cache_get t1 (cache_set now c k v ttl) k).2 k = Option.none ∧
      (∀ t2, (cache_get t2 (cache_get t1 (cache_set now c k v ttl) k).2 k).1 =
        Option.none)) := by
  have hset : cache_set now c k v ttl k = some (now + ttl, v) := by
    simp [cache_set]
  constructor
  · intro httl
    rw [cache_get, hset]
    dsimp only
    rw [if_neg (by linarith)]
  · intro hexp
    have hdel : (cache_get t1 (cache_set now c k v ttl) k).2 k = Option.none := by
      rw [cache_get, hset]
      dsimp only
      rw [if_pos hexp]
      simp
    refine ⟨?_, hdel, ?_⟩
    · rw [cache_get, hset]
      dsimp only
      rw [if_pos hexp]
    · intro t2
      rw [cache_get, hdel]

/-- The empty cache map. -/
def c7Empty : CacheMap := fun _ => Option.none

/-- A concrete `("search", q, page)` cache key. -/
def c7Key : CKey := ("search", "headphones", 1)

/-- C7 witness: `C7_confirmed` on the empty cache with ttl 180, put at instant
1000, stale lookup at 1181, later lookup at 2000. -/
theorem C7_witness :
    (cache_get 1000 (cache_set 1000 c7Empty c7Key [] 180) c7Key).1 = some [] ∧
    (cache_get 1181 (cache_set 1000 c7Empty c7Key [] 180) c7Key).1 = Option.none ∧
    (cache_get 1181 (cache_set 1000 c7Empty c7Key [] 180) c7Key).2 c7Key = Option.none ∧
    (cache_get 2000
      (cache_get 1181 (cache_set 1000 c7Empty c7Key [] 180) c7Key).2 c7Key).1 =
      Option.none := by
  have h := C7_confirmed c7Empty c7Key [] 180 1000 1181
  exact ⟨h.1 (by norm_num), (h.2 (by norm_num)).1, (h.2 (by norm_num)).2.1,
    (h.2 (by norm_num)).2.2 2000⟩

/-! ## Claim C8 — derived savings fields -/

/-- `savingsOf` with a `None` list price: the truthiness test fails, both
derived fields stay absent. -/
theorem savingsOf_none_right (pr : PyVal) :
    savingsOf pr PyVal.none = some (Option.none, Option.none) := by
  cases pr <;> simp [savingsOf, pyTruthy]

/-- `savingsOf` with a *present but zero* list price: `0.0` is falsy, so both
derived fields stay absent. -/
theorem savingsOf_num_zero (q : ℚ) :
    savingsOf (PyVal.num q) (PyVal.num 0) = some (Option.none, Option.none) := by
  simp [savingsOf, pyTruthy]

/-- `savingsOf` on two numbers with non-zero list price: the amount is
`max(0, listPrice - price)` and the percentage is rounded only for a positive
list price. -/
theorem savingsOf_num_num (q lq : ℚ) (h : lq ≠ 0) :
    savingsOf (PyVal.num q) (PyVal.num lq) =
      some (some (max 0 (lq - q)),
        if 0 < lq then some (pyRound (100 * max 0 (lq - q) / lq)) else Option.none) := by
  simp [savingsOf, pyTruthy, pyToQ, h]

/-- The raw item whose listing has `Price.Amount = 3` and
`SavingBasis.Amount = 0` (list price present but zero). -/
def c8ZeroLP : PyVal :=
  .dict [(.s "ASIN", .str "A1"),
         (.s "Offers", .dict [(.s "Listings", .dict [(.i 0,
            .dict [(.s "Price", .dict [(.s "Amount", .num 3)]),
                   (.s "SavingBasis", .dict [(.s "Amount", .num 0)])])])])]

/-- C8 counterexample: a normalized item with price 3 *present* and list price
0 *present* has `savings_amount` absent — not `max(0, 0 - 3) = 0` as the
claim requires for every item with both fields present — because the code
guards on the truthiness of `list_price_amt`, and `0.0` is falsy. -/
theorem C8_counterexample :
    (normalize_item c8ZeroLP).map Product.price = some (PyVal.num 3) ∧
    (normalize_item c8ZeroLP).map Product.list_price = some (PyVal.num 0) ∧
    (normalize_item c8ZeroLP).map Product.savings_amount = some Option.none ∧
    (some Option.none : Option (Option ℚ)) ≠ some (some (max 0 ((0 : ℚ) - 3))) :=
  ⟨rfl, rfl, rfl, by simp⟩

/-- C8 (amended): for every normalized item, the derived fields are absent
whenever either input is absent *or the list price is zero*; when both are
numeric and the list price is non-zero, `savingsAmount = max(0, listPrice -
price)`, and `savingsPercent = round(100 * savingsAmount / listPrice)` when
`listPrice > 0` (absent for a negative list price). -/
theorem C8_amended (item : PyVal) (p : Product) (hp : normalize_item item = some p) :
    ((p.price = PyVal.none ∨ p.list_price = PyVal.none) →
      p.savings_amount = Option.none ∧ p.savings_percent = Option.none) ∧
    (∀ q : ℚ, p.price = PyVal.num q → p.list_price = PyVal.num 0 →
      p.savings_amount = Option.none ∧ p.savings_percent = Option.none) ∧
    (∀ q lq : ℚ, p.price = PyVal.num q → p.list_price = PyVal.num lq → lq ≠ 0 →
      p.savings_amount = some (max 0 (lq - q)) ∧
      (0 < lq → p.savings_percent = some (pyRound (100 * max 0 (lq - q) / lq))) ∧
      (¬ 0 < lq → p.savings_percent = Option.none)) := by
  cases item with
  | none => simp [normalize_item] at hp
  | bool b => simp [normalize_item] at hp
  | num q => simp [normalize_item] at hp
  | str s => simp [normalize_item] at hp
  | list xs => simp [normalize_item] at hp
  | dict es =>
    simp only [normalize_item, Option.bind_eq_some, Option.map_eq_some'] at hp
    obtain ⟨sv, hsv, dmin, hdmin, dmax, hdmax, vars, hvars, feats, hfeats,
      upc, hupc, ean, hean, hrec⟩ := hp
    subst hrec
    dsimp only
    refine ⟨?_, ?_, ?_⟩
    · rintro (hpr | hlp)
      · rw [hpr] at hsv
        simp only [savingsOf, Option.some.injEq] at hsv
        rw [← hsv]
        exact ⟨rfl, rfl⟩
      · rw [hlp, savingsOf_none_right, Option.some.injEq] at hsv
        rw [← hsv]
        exact ⟨rfl, rfl⟩
    · intro q hq hlp
      rw [hq, hlp, savingsOf_num_zero, Option.some.injEq] at hsv
      rw [← hsv]
      exact ⟨rfl, rfl⟩
    · intro q lq hq hlq hne
      rw [hq, hlq, savingsOf_num_num q lq hne, Option.some.injEq] at hsv
      rw [← hsv]
      refine ⟨rfl, ?_, ?_⟩
      · intro h0
        simp [if_pos h0]
      · intro h0
        simp [if_neg h0]

/-- The record `normalize_item` yields for `c8ZeroLP`. -/
def c8ZeroProd : Product :=
  { noAsinProduct with
    id := .str "A1"
    asin := .str "A1"
    price := .num 3
    list_price := .num 0 }

/-- A raw item with price 80 and list price 100. -/
def c8SaleItem : PyVal :=
  .dict [(.s "ASIN", .str "A2"),
         (.s "Offers", .dict [(.s "Listings", .dict [(.i 0,
            .dict [(.s "Price", .dict [(.s "Amount", .num 80)]),
                   (.s "SavingBasis", .dict [(.s "Amount", .num 100)])])])])]

/-- The record `normalize_item` yields for `c8SaleItem`: amount
`max(0, 100-80) = 20`, percent `round(100*20/100) = 20`. -/
def c8SaleProd : Product :=
  { noAsinProduct with
    id := .str "A2"
    asin := .str "A2"
    price := .num 80
    list_price := .num 100
    savings_amount := some 20
    savings_percent := some 20 }

/-- C8 witness: `C8_amended` on three concrete normalized items — fields
absent, zero list price, and a genuine 80-of-100 sale. -/
theorem C8_witness :
    (noAsinProduct.savings_amount = Option.none ∧
      noAsinProduct.savings_percent = Option.none) ∧
    (c8ZeroProd.savings_amount = Option.none ∧
      c8ZeroProd.savings_percent = Option.none) ∧
    (c8SaleProd.savings_amount = some (max 0 ((100 : ℚ) - 80)) ∧
      c8SaleProd.savings_percent = some (pyRound (100 * max 0 ((100 : ℚ) - 80) / 100))) := by
  have hsv : savingsOf (PyVal.num 80) (PyVal.num 100) = some (some 20, some 20) := by
    rw [savingsOf_num_num 80 100 (by norm_num)]
    norm_num [pyRound]
  have hp : normalize_item c8SaleItem = some c8SaleProd := by
    have hstep : normalize_item c8SaleItem =
        (savingsOf (PyVal.num 80) (PyVal.num 100)).bind fun sv =>
          some { c8SaleProd with savings_amount := sv.1, savings_percent := sv.2 } := rfl
    rw [hstep, hsv]
    rfl
  refine ⟨?_, ?_, ?_⟩
  · exact (C8_amended (PyVal.dict []) noAsinProduct rfl).1 (Or.inl rfl)
  · exact (C8_amended c8ZeroLP c8ZeroProd rfl).2.1 3 rfl rfl
  · have h := (C8_amended c8SaleItem c8SaleProd hp).2.2 80 100 rfl rfl (by norm_num)
    exact ⟨h.1, h.2.1 (by norm_num)⟩

/-! ## Claim C9 — scoring monotonicity in rating and review count -/

/-- `x or 0.0` is the identity on numbers (a falsy `0.0` is replaced by the
same value `0`). -/
theorem pyOrZero_num (q : ℚ) : pyOrZero (PyVal.num q) = PyVal.num q := by
  by_cases h : q = 0
  · simp [pyOrZero, pyTruthy, h]
  · simp [pyOrZero, pyTruthy, h]

/-- Components of a successfully evaluated `score`: the coerced rating, the
review count (with `v + 1 > 0`, the `log10` domain), the price fit, and the
prime bonus. -/
theorem scoreParts_spec (mp : Option ℚ) (p : Product) (parts : ℚ × ℚ × ℚ × ℚ)
    (h : scoreParts mp p = some parts) :
    pyToQ (pyOrZero p.rating) = some parts.1 ∧
    pyToQ (pyOrZero p.review_count) = some parts.2.1 ∧
    (0 : ℚ) < parts.2.1 + 1 ∧
    priceFit mp p.price = some parts.2.2.1 ∧
    parts.2.2.2 = (if pyTruthy p.is_prime then (1/5 : ℚ) else 0) := by
  simp only [scoreParts, Option.bind_eq_some] at h
  obtain ⟨r, hr, v, hv, h⟩ := h
  by_cases hv1 : v + 1 ≤ 0
  · rw [if_pos hv1] at h
    exact Option.noConfusion h
  · rw [if_neg hv1] at h
    simp only [Option.map_eq_some'] at h
    obtain ⟨fit, hfit, hparts⟩ := h
    subst hparts
    exact ⟨hr, hv, by linarith, hfit, rfl⟩

/-- The value of `score` in terms of its exactly-computed parts. -/
theorem scoreR_eq (mp : Option ℚ) (p : Product) (parts : ℚ × ℚ × ℚ × ℚ)
    (h : scoreParts mp p = some parts) :
    scoreR mp p = 2 * (parts.1 : ℝ) + Real.logb 10 ((parts.2.1 : ℝ) + 1) +
      (parts.2.2.1 : ℝ) + (parts.2.2.2 : ℝ) := by
  obtain ⟨r, v, fit, bonus⟩ := parts
  rw [scoreR, h]

/-- C9: under `score = 2*rating + log10(reviewCount+1) + priceFit +
primeBonus`, two products equal in every score input except a strictly higher
rating score strictly higher; and holding rating, price and prime status
fixed, a strictly larger review count gives a strictly larger score. -/
theorem C9_confirmed :
    (∀ (mp : Option ℚ) (p1 p2 : Product) (r1 r2 : ℚ) (parts1 parts2 : ℚ × ℚ × ℚ × ℚ),
      p1.rating = PyVal.num r1 → p2.rating = PyVal.num r2 → r1 < r2 →
      p1.review_count = p2.review_count → p1.price = p2.price →
      p1.is_prime = p2.is_prime →
      scoreParts mp p1 = some parts1 → scoreParts mp p2 = some parts2 →
      scoreR mp p1 < scoreR mp p2) ∧
    (∀ (mp : Option ℚ) (p1 p2 : Product) (n1 n2 : ℚ) (parts1 parts2 : ℚ × ℚ × ℚ × ℚ),
      p1.review_count = PyVal.num n1 → p2.review_count = PyVal.num n2 → n1 < n2 →
      p1.rating = p2.rating → p1.price = p2.price → p1.is_prime = p2.is_prime →
      scoreParts mp p1 = some parts1 → scoreParts mp p2 = some parts2 →
      scoreR mp p1 < scoreR mp p2) := by
  constructor
  · intro mp p1 p2 r1 r2 parts1 parts2 hr1 hr2 hlt hvv hpp hii h1 h2
    obtain ⟨s1r, s1v, s1pos, s1fit, s1bon⟩ := scoreParts_spec mp p1 parts1 h1
    obtain ⟨s2r, s2v, s2pos, s2fit, s2bon⟩ := scoreParts_spec mp p2 parts2 h2
    rw [hr1, pyOrZero_num, pyToQ] at s1r
    rw [hr2, pyOrZero_num, pyToQ] at s2r
    have hr1' : parts1.1 = r1 := (Option.some.injEq .. ▸ s1r).symm
    have hr2' : parts2.1 = r2 := (Option.some.injEq .. ▸ s2r).symm
    have hv : parts1.2.1 = parts2.2.1 := by
      rw [hvv] at s1v
      rw [s1v] at s2v
      exact (Option.some.injEq .. ▸ s2v)
    have hfit : parts1.2.2.1 = parts2.2.2.1 := by
      rw [hpp] at s1fit
      rw [s1fit] at s2fit
      exact (Option.some.injEq .. ▸ s2fit)
    have hbon : parts1.2.2.2 = parts2.2.2.2 := by
      rw [s1bon, s2bon, hii]
    rw [scoreR_eq mp p1 parts1 h1, scoreR_eq mp p2 parts2 h2, hr1', hr2', hv, hfit, hbon]
    have : (r1 : ℝ) < r2 := by exact_mod_cast hlt
    linarith
  · intro mp p1 p2 n1 n2 parts1 parts2 hn1 hn2 hlt hrr hpp hii h1 h2
    obtain ⟨s1r, s1v, s1pos, s1fit, s1bon⟩ := scoreParts_spec mp p1 parts1 h1
    obtain ⟨s2r, s2v, s2pos, s2fit, s2bon⟩ := scoreParts_spec mp p2 parts2 h2
    rw [hn1, pyOrZero_num, pyToQ] at s1v
    rw [hn2, pyOrZero_num, pyToQ] at s2v
    have hn1' : parts1.2.1 = n1 := (Option.some.injEq .. ▸ s1v).symm
    have hn2' : parts2.2.1 = n2 := (Option.some.injEq .. ▸ s2v).symm
    have hr : parts1.1 = parts2.1 := by
      rw [hrr] at s1r
      rw [s1r] at s2r
      exact (Option.some.injEq .. ▸ s2r)
    have hfit : parts1.2.2.1 = parts2.2.2.1 := by
      rw [hpp] at s1fit
      rw [s1fit] at s2fit
      exact (Option.some.injEq .. ▸ s2fit)
    have hbon : parts1.2.2.2 = parts2.2.2.2 := by
      rw [s1bon, s2bon, hii]
    rw [scoreR_eq mp p1 parts1 h1, scoreR_eq mp p2 parts2 h2, hr, hfit, hbon, hn1', hn2']
    have hpos1 : (0 : ℝ) < (n1 : ℝ) + 1 := by
      rw [hn1'] at s1pos
      exact_mod_cast s1pos
    have hltR : (n1 : ℝ) + 1 < (n2 : ℝ) + 1 := by
      have : (n1 : ℝ) < n2 := by exact_mod_cast hlt
      linarith
    have := Real.logb_lt_logb (show (1 : ℝ) < 10 by norm_num) hpos1 hltR
    linarith

/-- Rating 3.0, 50 reviews. -/
def c9LowRating : Product :=
  { noAsinProduct with
    id := .str "L1"
    asin := .str "L1"
    rating := .num 3
    review_count := .num 50 }

/-- Rating 5.0, 50 reviews. -/
def c9HighRating : Product :=
  { noAsinProduct with
    id := .str "H1"
    asin := .str "H1"
    rating := .num 5
    review_count := .num 50 }

/-- Rating 3.0, 50000 reviews. -/
def c9ManyReviews : Product :=
  { noAsinProduct with
    id := .str "M1"
    asin := .str "M1"
    rating := .num 3
    review_count := .num 50000 }

/-- C9 witness: `C9_confirmed` on the spec's example products — rating 5.0/50
reviews outscores 3.0/50 reviews, and 3.0/50000 outscores 3.0/50. -/
theorem C9_witness :
    scoreR Option.none c9LowRating < scoreR Option.none c9HighRating ∧
    scoreR Option.none c9LowRating < scoreR Option.none c9ManyReviews := by
  have hL : scoreParts Option.none c9LowRating = some (3, 50, 0, 0) := by
    norm_num [scoreParts, pyOrZero, pyTruthy, pyToQ, priceFit, c9LowRating, noAsinProduct]
  have hH : scoreParts Option.none c9HighRating = some (5, 50, 0, 0) := by
    norm_num [scoreParts, pyOrZero, pyTruthy, pyToQ, priceFit, c9HighRating, noAsinProduct]
  have hM : scoreParts Option.none c9ManyReviews = some (3, 50000, 0, 0) := by
    norm_num [scoreParts, pyOrZero, pyTruthy, pyToQ, priceFit, c9ManyReviews, noAsinProduct]
  exact ⟨C9_confirmed.1 Option.none c9LowRating c9HighRating 3 5 (3, 50, 0, 0) (5, 50, 0, 0)
      rfl rfl (by norm_num) rfl rfl rfl hL hH,
    C9_confirmed.2 Option.none c9LowRating c9ManyReviews 50 50000 (3, 50, 0, 0) (3, 50000, 0, 0)
      rfl rfl (by norm_num) rfl rfl rfl hL hM⟩

/-! ## Claim C10 — the pages clamp and per-request fetch bound -/

/-- C10 counterexample: a request with `pages=3` whose first page fetch fails
iterates only one page — the loop breaks — so the number of pages iterated is
1, not `clamp(3, 1, 5) = 3`. -/
theorem C10_counterexample :
    pagesOf [("pages", "3")] = 3 ∧
    searchAccum (fun _ => Option.none) (fun _ => Except.error "boom") Option.none false
      (pageList [("pages", "3")]) = some ([], ["boom"], [1]) ∧
    ([1] : List ℕ).length = 1 ∧ (1 : ℕ) ≠ 3 := by
  refine ⟨by decide, rfl, rfl, by decide⟩

/-- C10 (amended): the loop bound `pages = max(1, min(requested, 5))` always
lies in `[1, 5]`; a missing `pages` parameter, or one that `int()` cannot
parse, yields bound exactly 1; and every run makes at most 5 upstream fetch
attempts — but a fetch failure stops the loop early and cache hits need no
fetch, so the number of pages actually iterated/fetched can be smaller than
the clamped bound. -/
theorem C10_amended (args : List (String × String)) (cached : ℕ → Option (List Product))
    (fetch : ℕ → Except String (List PyVal)) (mp : Option ℚ) (po : Bool)
    (rs : List Product) (es : List String) (att : List ℕ) :
    (1 ≤ pagesOf args ∧ pagesOf args ≤ 5) ∧
    (argsGet args "pages" = Option.none → pagesOf args = 1) ∧
    (∀ s, argsGet args "pages" = some s → parseIntPy s = Option.none → pagesOf args = 1) ∧
    (searchAccum cached fetch mp po (pageList args) = some (rs, es, att) →
      att.length ≤ 5) := by
  have hb : 1 ≤ pagesOf args ∧ pagesOf args ≤ 5 := by
    unfold pagesOf
    constructor
    · exact le_max_left 1 _
    · exact max_le (by norm_num) (le_trans (min_le_right _ 5) (by norm_num))
  refine ⟨hb, ?_, ?_, ?_⟩
  · intro h
    unfold pagesOf intParam
    rw [h]
    decide
  · intro s hs hparse
    unfold pagesOf intParam
    rw [hs]
    dsimp only
    by_cases he : s = ""
    · rw [if_pos he]
      decide
    · rw [if_neg he, hparse]
      decide
  · intro h
    have h1 := searchAccum_att_le cached fetch mp po (pageList args) rs es att h
    have h2 : (pageList args).length = (pagesOf args).toNat := by
      simp [pageList]
    have h3 : (pagesOf args).toNat ≤ 5 := by
      omega
    omega

/-- C10 witness: `C10_amended` on concrete requests — `pages=7` clamps into
`[1,5]`, a missing and a malformed `pages` give 1, and a one-page all-cached
run makes 0 ≤ 5 fetch attempts. -/
theorem C10_witness :
    (1 ≤ pagesOf [("pages", "7")] ∧ pagesOf [("pages", "7")] ≤ 5) ∧
    pagesOf [] = 1 ∧
    pagesOf [("pages", "abc")] = 1 ∧
    ([] : List ℕ).length ≤ 5 := by
  refine ⟨(C10_amended [("pages", "7")] (fun _ => some []) (fun _ => Except.error "e")
      Option.none false [] [] []).1, ?_, ?_, ?_⟩
  · exact (C10_amended [] (fun _ => some []) (fun _ => Except.error "e")
      Option.none false [] [] []).2.1 rfl
  · exact (C10_amended [("pages", "abc")] (fun _ => some []) (fun _ => Except.error "e")
      Option.none false [] [] []).2.2.1 "abc" rfl (by decide)
  · exact (C10_amended [("pages", "1")] (fun _ => some []) (fun _ => Except.error "e")
      Option.none false [] [] []).2.2.2 rfl
